import Mathlib

/-!
Verification development for the fingerprint combine/hash scripts.

The definitions below are a shallow embedding of `combine_hash.py` and
`flv_hasher.py`: byte strings become `List Nat`, fingerprint records become
tuples of strings, Python functions that can raise become `Option`- or
`Except`-valued Lean functions (`none` / `.error` marks the raised
exception), and a Python `None` return value is modelled by an explicit
constructor distinct from byte values.
-/

/-! ## combine_hash.py: Fingerprint Log Loader (`load_hashfile`) -/

/-- The four known leading sentinel fingerprints checked at
`combine_hash.py` line 21. -/
def leadSentinels : List String :=
  ["385582ab16cda6cd4679a885595934d8", "bfe0f881f9171d081de1b75dd22036c1",
   "3b39b1eba5581f61885ba84348d6022b", "890bbdf2f5c958a93a873a0aac693b5e"]

/-- The known trailing sentinel fingerprint checked at
`combine_hash.py` line 23. -/
def trailSentinel : String := "4190e69bc46ee05ab77499152204f527"

/-- Python list slicing `xs[start:stop]` with a natural start and a possibly
negative stop, as used by `hashes[start:end]` in `load_hashfile`. -/
def pySlice (xs : List α) (start : Nat) (stop : Int) : List α :=
  let stopN : Nat := if 0 ≤ stop then stop.toNat else xs.length - (-stop).toNat
  (xs.take stopN).drop start

/-- The `fields.append(fn)` step of `load_hashfile`: every parsed record
gets the source file name appended as its last field. -/
def withFn (recs : List (List String)) (fn : String) : List (List String) :=
  recs.map (fun r => r ++ [fn])

/-- `load_hashfile` (combine_hash.py lines 9-25) on the already-split records
of one file: each record gets the file name appended, then the slice bounds
are computed from the first and last record's fingerprint field.  `none`
models the IndexError raised on an empty file. -/
def load_hashfile (recs : List (List String)) (fn : String) :
    Option (List (List String)) :=
  let hashes := withFn recs fn
  if hashes.isEmpty then none
  else
    let start : Nat :=
      if leadSentinels.contains ((hashes.headD []).headD "") then 1 else 0
    let stop : Int :=
      if (hashes.getLastD []).headD "" = trailSentinel then -1
      else hashes.length
    some (pySlice hashes start stop)

/-! ## combine_hash.py: Overlap Matcher (`match`) -/

/-- One fingerprint record as loaded from a video/audio hash log: the tuple
`(md5, ts, desc, pos, size, desc2, fn)` built by `load_hashfile` from the six
tab-separated fields plus the appended file name.  `match` reads field 0
(`md5`), `match_and_join` reads field 5 (`desc2`), and line 51 of
`combine_hash.py` compares whole tuples. -/
structure HashRec where
  md5 : String
  ts : String
  desc : String
  pos : String
  size : String
  desc2 : String
  fn : String
deriving DecidableEq, Repr

/-- The autojunk "popular" purge of `difflib.SequenceMatcher.__chain_b`
with `isjunk=None`: once the second sequence has at least 200 elements,
every element occurring more than `len // 100 + 1` times is dropped from
the position index `b2j` and cannot start or continue a match in the main
search loop. -/
def popular_filter (ys : List String) : List String :=
  if ys.length < 200 then []
  else ys.dedup.filter (fun y => ys.length / 100 + 1 < ys.count y)

/-- Length of the common run at the heads of two lists in which every
element of the second list avoids the popular set (a chain through `b2j`
breaks at purged positions). -/
def commonRunNP (popular : List String) : List String → List String → Nat
  | x :: xs, y :: ys =>
    if x = y ∧ popular.contains y = false then commonRunNP popular xs ys + 1
    else 0
  | _, _ => 0

/-- Length of the popular-avoiding contiguous common run of `xs` and `ys`
starting at offsets `a` and `b`. -/
def runLenNP (popular : List String) (xs ys : List String) (a b : Nat) :
    Nat :=
  commonRunNP popular (xs.drop a) (ys.drop b)

/-- The first extension loop pair of `find_longest_match`: with
`isjunk=None` the junk set is empty, so the found block is extended to the
left over any equal elements (popular ones included). -/
def extendLeft (xs ys : List String) : Nat → Nat → Nat → Nat × Nat × Nat
  | i + 1, j + 1, k =>
    match xs.get? i, ys.get? j with
    | some x, some y =>
      if x = y then extendLeft xs ys i j (k + 1) else (i + 1, j + 1, k)
    | _, _ => (i + 1, j + 1, k)
  | i, j, k => (i, j, k)

/-- The matching right-extension loop; at most `xs.length` steps are ever
possible, which bounds the fuel. -/
def extendRightAux (xs ys : List String) (i j : Nat) : Nat → Nat → Nat
  | 0, k => k
  | fuel + 1, k =>
    match xs.get? (i + k), ys.get? (j + k) with
    | some x, some y =>
      if x = y then extendRightAux xs ys i j fuel (k + 1) else k
    | _, _ => k

/-- `difflib.SequenceMatcher(None, xs, ys).find_longest_match(0, len xs, 0,
len ys)` as run at combine_hash.py line 38, autojunk included: the main
loop finds the longest contiguous common run whose `ys` elements all avoid
the popular set (ties broken by the earliest start in `xs`, then in `ys`;
`(0, 0, 0)` when nothing matches), and the block is then extended left and
right over arbitrary equal elements.  For a `ys` of fewer than 200
elements the popular set is empty and the result is exactly the longest
contiguous common run.  The fold scans candidate starts in lexicographic
order and updates only on a strictly larger run, which realises difflib's
tie-breaking. -/
def find_longest_match (xs ys : List String) : Nat × Nat × Nat :=
  let popular := popular_filter ys
  let core := ((List.range xs.length).flatMap (fun a =>
      (List.range ys.length).map
        (fun b => (a, b, runLenNP popular xs ys a b)))).foldl
    (fun best c => if best.2.2 < c.2.2 then c else best) (0, 0, 0)
  let ext := extendLeft xs ys core.1 core.2.1 core.2.2
  (ext.1, ext.2.1, extendRightAux xs ys ext.1 ext.2.1 xs.length ext.2.2)

/-- Python `xs[-n:]` for the window extraction `lead[-match_num:]`:
the last `n` elements, the whole list when `n = 0`. -/
def pyTakeLast (n : Nat) (xs : List α) : List α :=
  if n = 0 then xs else xs.drop (xs.length - n)

/-- The fingerprints of the last `n` records of `lead`
(`lead_hashes` at combine_hash.py line 35). -/
def leadWindow (lead : List HashRec) (n : Nat) : List String :=
  (pyTakeLast n lead).map HashRec.md5

/-- The fingerprints of the first `n` records of `follow`
(`follow_hashes` at combine_hash.py line 36). -/
def followWindow (follow : List HashRec) (n : Nat) : List String :=
  (follow.take n).map HashRec.md5

/-- `match` (combine_hash.py lines 34-60).  Returns the pair of cut indices;
the first component is an `Int` because `len(lead)+a-match_num` can be
negative in Python.  `none` models the `raise AssertionError` at line 57. -/
def matchSegs (lead follow : List HashRec) (match_num : Nat) :
    Option (Int × Nat) :=
  let lead_hashes := leadWindow lead match_num
  let follow_hashes := followWindow follow match_num
  let m := find_longest_match lead_hashes follow_hashes
  let a := m.1
  let b := m.2.1
  let size := m.2.2
  if 0 < size ∧ 0 < a then
    if b ≤ 1 ∧ a + size = min match_num lead_hashes.length then
      some ((lead.length : Int) + a - match_num, b)
    else if b = 0 ∧ size = follow_hashes.length ∧
        follow_hashes.length < match_num then
      some ((lead.length : Int), follow_hashes.length)
    else if size = 1 then
      some ((lead.length : Int), 0)
    else if lead.get? a ≠ follow.get? b ∧
        lead.get? (a + size - 1) ≠ follow.get? (b + size - 1) then
      some ((lead.length : Int), 0)
    else
      none
  else
    some ((lead.length : Int), 0)

/-! ## combine_hash.py: Sequence Joiner (`match_and_join`, `join_hashes`) -/

/-- Python `xs[:i]` with a possibly negative `Int` bound, as used by
`lead[:a_end]` in `match_and_join`. -/
def pyTakeInt (xs : List α) (i : Int) : List α :=
  if 0 ≤ i then xs.take i.toNat else xs.take (xs.length - (-i).toNat)

/-- The `while lead[-1][5] in ['end']: lead = lead[:-1]` loop of
`match_and_join`; `none` models the IndexError hit when the list is
exhausted (or empty to begin with). -/
def stripEndRecords (l : List HashRec) : Option (List HashRec) :=
  let r := (l.reverse.dropWhile (fun rec => rec.desc2 = "end")).reverse
  if r.isEmpty then none else some r

/-- The `while follow[0][5] in ['header']: follow = follow[1:]` loop of
`match_and_join`; `none` models the IndexError on exhaustion. -/
def stripHeaderRecords (f : List HashRec) : Option (List HashRec) :=
  let r := f.dropWhile (fun rec => rec.desc2 = "header")
  if r.isEmpty then none else some r

/-- `match_and_join` (combine_hash.py lines 75-81). -/
def match_and_join (lead follow : List HashRec) : Option (List HashRec) :=
  match stripEndRecords lead, stripHeaderRecords follow with
  | some l, some f =>
    match matchSegs l f 3600 with
    | some (a_end, b_start) => some (pyTakeInt l a_end ++ f.drop b_start)
    | none => none
  | _, _ => none

/-- `join_hashes` (combine_hash.py lines 83-89): left fold of
`match_and_join` over the loaded segments. -/
def join_hashes (hs : List (List HashRec)) : Option (List HashRec) :=
  match hs with
  | [] => some []
  | l :: rest => rest.foldlM (fun acc f => match_and_join acc f) l

/-! ## flv_hasher.py: Container Tag Reader (`FlvReader`) -/

/-- `big_endian_to_int` (flv_hasher.py lines 16-21). -/
def big_endian_to_int (bs : List Nat) : Nat :=
  bs.foldl (fun value byte => value * 256 + byte) 0

/-- A readable byte source together with the current file position, the
state behind `self._file` in `FlvReader`. -/
structure ByteStream where
  bytes : List Nat
  pos : Nat
deriving DecidableEq, Repr

/-- `FlvReader.read_bytes` (flv_hasher.py lines 51-56): read exactly `size`
bytes or raise `IOError` (`none`) on a short read. -/
def read_bytes (s : ByteStream) (size : Nat) :
    Option (List Nat × ByteStream) :=
  let data := (s.bytes.drop s.pos).take size
  if data.length < size then none
  else some (data, { s with pos := s.pos + size })

/-- One FLV tag as materialised by `FlvReader.get_next_tag`. -/
structure FlvTagRaw where
  tag_type : Nat
  timestamp : Nat
  data : List Nat
  pos : Nat
deriving DecidableEq, Repr

/-- `FlvReader.parse_header` (flv_hasher.py lines 73-85): seek to 0, read 9
bytes, check signature `b'FLV'`, version 1, reserved bits, and header size 9;
`none` models the `ValueError`s.  Returns the `(has_video, has_audio)` flags
and the stream positioned after the header. -/
def parse_header (s : ByteStream) : Option (Bool × Bool × ByteStream) :=
  match read_bytes { s with pos := 0 } 9 with
  | none => none
  | some (hb, s1) =>
    if hb.take 3 ≠ [70, 76, 86] then none
    else if hb.getD 3 0 ≠ 1 then none
    else if hb.getD 4 0 &&& 0b11111010 ≠ 0 then none
    else if big_endian_to_int (hb.drop 5) ≠ 9 then none
    else some (hb.getD 4 0 &&& 0x01 = 0x01, hb.getD 4 0 &&& 0x04 = 0x04, s1)

/-- `FlvReader.__init__` (flv_hasher.py lines 32-38): parse the header, then
assert that the following 32-bit field is zero.  Returns the stream
positioned at the first tag. -/
def flv_reader_init (s : ByteStream) : Option ByteStream :=
  match parse_header s with
  | none => none
  | some (_, _, s1) =>
    match read_bytes s1 4 with
    | none => none
    | some (z, s2) => if big_endian_to_int z = 0 then some s2 else none

/-- The read phase of `FlvReader.get_next_tag` (flv_hasher.py lines
87-99): the 11-byte tag header (type, 24-bit size, 24+8-bit timestamp,
24-bit stream id), the payload, and the advisory 32-bit trailing size.
Any short read raises `IOError` (`none`); the stream-id and trailing-size
checks only log warnings.  The `FlvTag` construction that follows at line
100 is modelled separately below (it needs the normalizer and the metadata
parser). -/
def read_tag_fields (s : ByteStream) : Option (FlvTagRaw × ByteStream) :=
  (read_bytes s 1).bind (fun r1 =>
  (read_bytes r1.2 3).bind (fun r2 =>
  (read_bytes r2.2 3).bind (fun r3 =>
  (read_bytes r3.2 1).bind (fun r4 =>
  (read_bytes r4.2 3).bind (fun r5 =>
  (read_bytes r5.2 (big_endian_to_int r2.1)).bind (fun r6 =>
  (read_bytes r6.2 4).bind (fun r7 =>
  some (⟨big_endian_to_int r1.1,
         big_endian_to_int r3.1 + big_endian_to_int r4.1 * 2 ^ 24,
         r6.1, s.pos⟩, r7.2))))))))

/-! ## flv_hasher.py: Payload Normalizer (`filter_hls`, `filter_vheader`) -/

/-- The result of a Python function that can return bytes or the value
`None`: `FlvTag.filter_hls` falls off the end of the `data[0] == 0x17`
branch when neither length variant matches, which in Python returns
`None`, not bytes and not an exception. -/
inductive PyVal where
  | bytes (bs : List Nat)
  | pynone
deriving DecidableEq, Repr

/-- First index at which `pat` occurs as a contiguous block of `s`
(Python `s.index(pat)` / the `pat in s` test). -/
def findSub (s pat : List Nat) : Option Nat :=
  (List.range (s.length + 1)).find? (fun i => pat.isPrefixOf (s.drop i))

/-- Python `pat in s` on byte strings. -/
def containsBytes (s pat : List Nat) : Bool :=
  (findSub s pat).isSome

/-- `FlvTag.filter_hls` (flv_hasher.py lines 169-183).  `.error` models the
`assert` failures; `.pynone` is the implicit `return None` reached when
`data[0] == 0x17`, the six-byte signature matches, but `data[11:15]` is
neither `b"\x00\x00\x00\x0e"` nor `b"\x00\x00\x00\x27"`. -/
def filter_hls (p : List Nat) : Except String PyVal :=
  if [0, 0, 0, 2].isPrefixOf ((p.drop 5).take 5) then
    if p.headD 0 = 0x17 then
      if (p.drop 5).take 6 = [0, 0, 0, 2, 9, 0xf0] then
        if (p.drop 11).take 4 = [0, 0, 0, 0x0e] then
          if (p.drop 29).take 4 = [0, 0, 0, 4] then
            Except.ok (PyVal.bytes (p.take 5 ++ p.drop 37))
          else Except.error "AssertionError"
        else if (p.drop 11).take 4 = [0, 0, 0, 0x27] then
          if (p.drop 54).take 4 = [0, 0, 0, 4] then
            Except.ok (PyVal.bytes (p.take 5 ++ p.drop 62))
          else Except.error "AssertionError"
        else Except.ok PyVal.pynone
      else Except.error "AssertionError"
    else
      if (p.drop 5).take 6 = [0, 0, 0, 2, 9, 0xf0] then
        Except.ok (PyVal.bytes (p.take 5 ++ p.drop 11))
      else Except.error "AssertionError"
  else Except.ok (PyVal.bytes p)

/-- The 16 marker bytes `b'BVCLIVETIMESTAMP'`. -/
def bvcMarker : List Nat :=
  [66, 86, 67, 76, 73, 86, 69, 84, 73, 77, 69, 83, 84, 65, 77, 80]

/-- The 45 literal bytes `b':BVCLIVETIMESTAMP<brace>"author":"nginx","curr_ms":'`
shared by `FlvTag.header_re` and the trailing assertion of the BILIAVC
branch. -/
def nginxLit : List Nat :=
  [58, 66, 86, 67, 76, 73, 86, 69, 84, 73, 77, 69, 83, 84, 65, 77, 80, 123,
   34, 97, 117, 116, 104, 111, 114, 34, 58, 34, 110, 103, 105, 110, 120, 34,
   44, 34, 99, 117, 114, 114, 95, 109, 115, 34, 58]

/-- The 69 literal bytes of the pc_link guard searched in `data[:300]`
(flv_hasher.py line 192). -/
def pcLinkGuard : List Nat :=
  [0, 0, 0, 116, 6, 5, 112, 66, 86, 67, 76, 73, 86, 69, 84, 73, 77, 69, 83,
   84, 65, 77, 80, 123, 34, 97, 117, 116, 104, 111, 114, 34, 58, 34, 112, 99,
   95, 108, 105, 110, 107, 34, 44, 34, 97, 117, 116, 104, 111, 114, 95, 118,
   101, 114, 34, 58, 34, 52, 46, 51, 56, 46, 49, 46, 52, 52, 54, 52, 34]

/-- The 23 bytes `b'\x00\x00\x00t\x06\x05pBVCLIVETIMESTAMP'` located with
`.index` in the pc_link branch (flv_hasher.py line 193). -/
def pcLinkIdxPat : List Nat :=
  [0, 0, 0, 116, 6, 5, 112, 66, 86, 67, 76, 73, 86, 69, 84, 73, 77, 69, 83,
   84, 65, 77, 80]

/-- Length of the full pc_link header literal at flv_hasher.py line 200. -/
def pcLinkFullLen : Nat := 120

/-- The 53 literal bytes of the BILIAVC guard searched in `data[:300]`
(flv_hasher.py line 202). -/
def biliGuard : List Nat :=
  [66, 73, 76, 73, 65, 86, 67, 46, 49, 46, 52, 46, 50, 32, 45, 32, 72, 46,
   50, 54, 52, 47, 65, 86, 67, 32, 99, 111, 100, 101, 99, 32, 45, 32, 67,
   111, 112, 121, 114, 105, 103, 104, 116, 32, 50, 48, 49, 57, 45, 50, 48,
   50, 49]

/-- The 6 bytes `b'\x00\x00\x00\x98\x06\x05'` located with `.index` in the
BILIAVC branch (flv_hasher.py line 203). -/
def biliIdxPat : List Nat := [0, 0, 0, 152, 6, 5]

/-- Length of the full BILIAVC header literal at flv_hasher.py line 210. -/
def biliFullLen : Nat := 156

/-- ASCII decimal digit test for the `\d{13}` part of the regexes. -/
def isAsciiDigit (b : Nat) : Bool := decide (0x30 ≤ b) && decide (b ≤ 0x39)

/-- `FlvTag.header_re.match` on the 66-byte slice `data[5:5+66]`
(flv_hasher.py lines 185 and 190): 6 fixed bytes, the 45-byte nginx
literal, 13 ASCII digits, then `b'<brace2>\x80'`. -/
def header_re_test (s : List Nat) : Bool :=
  decide (s.take 6 = [0, 0, 0, 62, 6, 5]) &&
  decide ((s.drop 6).take 45 = nginxLit) &&
  decide (((s.drop 51).take 13).length = 13) &&
  ((s.drop 51).take 13).all isAsciiDigit &&
  decide ((s.drop 64).take 2 = [125, 128])

/-- The `re.match` assertion on the last 60 bytes of the BILIAVC header
(flv_hasher.py line 211): the 45-byte nginx literal, 13 ASCII digits, then
`b'<brace2>\x80'`. -/
def tail_re_test (s : List Nat) : Bool :=
  decide (s.take 45 = nginxLit) &&
  decide (((s.drop 45).take 13).length = 13) &&
  ((s.drop 45).take 13).all isAsciiDigit &&
  decide ((s.drop 58).take 2 = [125, 128])

/-- The `while pre_header:` loop shared by the pc_link and BILIAVC branches
(flv_hasher.py lines 195-199 and 205-209): walk the chain of
length-prefixed boxes; `none` models the `assert` failures and the
IndexError on `pre_header[3]`. -/
def walk_pre_header (ph : List Nat) : Option Unit :=
  if h : ph = [] then some ()
  else if ph.take 3 = [0, 0, 0] then
    match ph.get? 3 with
    | none => none
    | some body_length =>
      if body_length + 4 ≤ ph.length then
        walk_pre_header (ph.drop (body_length + 4))
      else none
  else none
termination_by ph.length
decreasing_by
  simp only [List.length_drop]
  have : 0 < ph.length := List.length_pos.mpr h
  omega

/-- `FlvTag.filter_vheader` (flv_hasher.py lines 186-217).  `.error` models
the `assert` failures, the `raise NotImplementedError`, and the
`ValueError` a failed `.index` would raise. -/
def filter_vheader (p0 : List Nat) : Except String (List Nat) :=
  let p := if [0, 0, 0, 2, 9].isPrefixOf ((p0.drop 5).take 5) then
             p0.take 5 ++ p0.drop 11
           else p0
  if containsBytes (p.take 300) bvcMarker then
    if header_re_test ((p.drop 5).take 66) then
      Except.ok (p.take 5 ++ p.drop 71)
    else if containsBytes (p.take 300) pcLinkGuard then
      match findSub (p.take 390) pcLinkIdxPat with
      | none => Except.error "ValueError"
      | some header_index =>
        match walk_pre_header ((p.drop 5).take (header_index - 5)) with
        | none => Except.error "AssertionError"
        | some _ =>
          Except.ok (p.take 5 ++ p.drop (header_index + pcLinkFullLen))
    else if containsBytes (p.take 300) biliGuard then
      match findSub (p.take 390) biliIdxPat with
      | none => Except.error "ValueError"
      | some header_index =>
        match walk_pre_header ((p.drop 5).take (header_index - 5)) with
        | none => Except.error "AssertionError"
        | some _ =>
          let header_end := header_index + biliFullLen
          if tail_re_test ((p.drop (header_end - 60)).take 60) then
            Except.ok (p.take 5 ++ p.drop header_end)
          else Except.error "AssertionError"
    else Except.error "NotImplementedError"
  else
    if p.take 3 = [0, 0, 0] then Except.error "AssertionError"
    else Except.ok p

/-- The two command-line flags read by the `FlvTag.data` property. -/
structure Config where
  hls_fix : Bool
  vheader_ignore : Bool
deriving DecidableEq, Repr

/-- The `FlvTag.data` property (flv_hasher.py lines 218-225): apply
`filter_hls` when `hls_fix` is set, then `filter_vheader` unless
`vheader_ignore` is set.  Passing the Python `None` that `filter_hls` can
return into `filter_vheader` raises a `TypeError` on its first
subscript. -/
def normalize_data (cfg : Config) (p : List Nat) : Except String PyVal :=
  let step1 : Except String PyVal :=
    if cfg.hls_fix then filter_hls p else Except.ok (PyVal.bytes p)
  match step1 with
  | Except.error e => Except.error e
  | Except.ok v =>
    if cfg.vheader_ignore then Except.ok v
    else
      match v with
      | PyVal.pynone => Except.error "TypeError"
      | PyVal.bytes bs =>
        match filter_vheader bs with
        | Except.error e => Except.error e
        | Except.ok q => Except.ok (PyVal.bytes q)

/-! ## flv_hasher.py: Tag Fingerprinter metadata (`parse_meta`) -/

/-- The `self.meta` dictionary filled in by `FlvTag.parse_meta`. -/
structure TagMeta where
  frame_type : Option Nat
  codec_id : Option Nat
  avc_packet_type : Option Nat
  sound_format : Option Nat
  sound_rate : Option Nat
deriving DecidableEq, Repr

/-- The empty metadata dictionary. -/
def emptyMeta : TagMeta := ⟨none, none, none, none, none⟩

/-- The `FlvTag.type` property (flv_hasher.py lines 280-286):
`{8: 'audio', 9: 'video', 18: 'script'}.get(type_id, type_id)`; `none`
stands for the raw-integer passthrough. -/
def typeStr (type_id : Nat) : Option String :=
  if type_id = 8 then some "audio"
  else if type_id = 9 then some "video"
  else if type_id = 18 then some "script"
  else none

/-- `FlvTag.parse_meta` (flv_hasher.py lines 227-238) on the normalized
payload: an empty payload is the guarded no-descriptor case; for a video
payload whose low nibble is 7 (`codec_id == 'AVC'`) the AVC packet type is
read from `data[1]`, and `none` models the IndexError raised when that
second byte does not exist. -/
def parse_meta (type_id : Nat) (ndata : List Nat) : Option TagMeta :=
  if ndata.isEmpty then some emptyMeta
  else if typeStr type_id = some "video" then
    let frame_type := ndata.headD 0 / 16
    let codec_id := ndata.headD 0 % 16
    if codec_id = 7 then
      match ndata.get? 1 with
      | none => none
      | some pt => some ⟨some frame_type, some codec_id, some pt, none, none⟩
    else some ⟨some frame_type, some codec_id, none, none, none⟩
  else if typeStr type_id = some "audio" then
    some ⟨none, none, none, some (ndata.headD 0 / 16),
          some (ndata.headD 0 % 16 / 4)⟩
  else some emptyMeta

/-! ## flv_hasher.py: tag construction and iteration
(`FlvTag.__init__`, `FlvReader.get_next_tag`, `FlvReader.iter_tag`) -/

/-- A constructed `FlvTag` (flv_hasher.py lines 159-167): the raw fields
plus the metadata derived by `parse_meta`.  (The md5/sha1 fingerprint
strings computed in `__init__` are opaque digests and carry no further
control flow, so they are not carried in the record; their computation's
error behaviour is modelled in `mkFlvTag`.) -/
structure FlvTag where
  type_id : Nat
  timestamp : Nat
  data : List Nat
  pos : Nat
  meta : TagMeta
deriving DecidableEq, Repr

/-- `FlvTag.__init__` (flv_hasher.py lines 160-167): it eagerly evaluates
the `data` property — running `filter_hls`/`filter_vheader`, whose
`AssertionError`/`NotImplementedError` propagate — hashes the result
(`hashlib.md5(None)` raises `TypeError` when `filter_hls` fell through to
Python `None`), and then runs `parse_meta`, whose read of `data[1]` can
raise `IndexError`. -/
def mkFlvTag (cfg : Config) (raw : FlvTagRaw) : Except String FlvTag :=
  match normalize_data cfg raw.data with
  | Except.error e => Except.error e
  | Except.ok PyVal.pynone => Except.error "TypeError"
  | Except.ok (PyVal.bytes nd) =>
    match parse_meta raw.tag_type nd with
    | none => Except.error "IndexError"
    | some m =>
      Except.ok ⟨raw.tag_type, raw.timestamp, raw.data, raw.pos, m⟩

/-- The two ways a `get_next_tag` call can raise: an `IOError` from a
short read (which `iter_tag` catches) or any other exception escaping the
`FlvTag` construction (which it does not). -/
inductive ReadErr where
  | ioError
  | tagError (msg : String)
deriving DecidableEq, Repr

/-- `FlvReader.get_next_tag` (flv_hasher.py lines 87-101): read the tag
fields, then construct the `FlvTag`. -/
def get_next_tag (cfg : Config) (s : ByteStream) :
    Except ReadErr (FlvTag × ByteStream) :=
  match read_tag_fields s with
  | none => Except.error ReadErr.ioError
  | some (raw, s') =>
    match mkFlvTag cfg raw with
    | Except.error e => Except.error (ReadErr.tagError e)
    | Except.ok t => Except.ok (t, s')

/-- Fuel-indexed unfolding of the `while True: try: yield ... except
IOError: break` loop of `FlvReader.iter_tag` (flv_hasher.py lines
103-108): the first component collects the tags yielded so far; the second
is `none` on a clean break (IOError caught) and `some e` when an exception
from the tag construction escapes the loop. -/
def iter_tag_fuel (cfg : Config) : Nat → ByteStream → List FlvTag × Option String
  | 0, _ => ([], none)
  | n + 1, s =>
    match get_next_tag cfg s with
    | Except.error ReadErr.ioError => ([], none)
    | Except.error (ReadErr.tagError e) => ([], some e)
    | Except.ok (t, s') =>
      let r := iter_tag_fuel cfg n s'
      (t :: r.1, r.2)

/-- `FlvReader.iter_tag`: every successful tag advances the position by at
least 15 bytes, so `bytes.length + 1` units of fuel always suffice (proved
below as `iter_tag_unfold`). -/
def iter_tag (cfg : Config) (s : ByteStream) : List FlvTag × Option String :=
  iter_tag_fuel cfg (s.bytes.length + 1) s

/-! ## flv_hasher.py: Fingerprint Log Writer gate (`dump_hash`) -/

/-- The skip-existing gate at the top of `FlvReader.dump_hash`
(flv_hasher.py lines 122-130): given the flag and the existence of the
three per-media-type log files, decide whether the hashing run proceeds
(`true`) or returns immediately as a no-op (`false`).  The source returns
as soon as any one of the three files exists. -/
def dump_hash_proceeds (skip_existing v_exists a_exists m_exists : Bool) :
    Bool :=
  if skip_existing then
    if v_exists then false
    else if a_exists then false
    else if m_exists then false
    else true
  else true

/-! ## Helper lemmas -/

/-- The lead search window never holds more than 3600 fingerprints. -/
theorem leadWindow_len_le (lead : List HashRec) :
    (leadWindow lead 3600).length ≤ 3600 := by
  simp only [leadWindow, pyTakeLast, List.length_map]
  split
  · omega
  · simp only [List.length_drop]
    omega

/-! ## Claim C1 -/

/-- A shared record constructor for the concrete counterexamples: a video
NALU record with fixed timecode/offset fields. -/
def mkRec (h fn : String) : HashRec :=
  ⟨h, "00:00:00.000", "I", "0", "100", "NALU", fn⟩

def cexLeadA : List HashRec := [mkRec "x" "f1", mkRec "y" "f1"]

def cexFollowA : List HashRec := [mkRec "x" "f2", mkRec "y" "f2"]

/-- Claim C1 as stated is false: with `lead = [x, y]` and `follow = [x, y]`
the longest common run starts at offset 0 of lead's window, has follow
offset 0 ≤ 1 and reaches the end of lead's window, yet `match` returns
`(len(lead), 0) = (2, 0)` and not the claimed
`(len(lead) - window + matchStartInLead, matchStartInFollow) = (-3598, 0)`:
the `size > 0 and a > 0` gate at combine_hash.py line 39 sends a match
starting at offset 0 to the no-overlap branch. -/
theorem match_case3_origin_cex :
    find_longest_match (leadWindow cexLeadA 3600) (followWindow cexFollowA 3600)
      = (0, 0, 2) ∧
    (0 : Nat) ≤ 1 ∧
    0 + 2 = (leadWindow cexLeadA 3600).length ∧
    matchSegs cexLeadA cexFollowA 3600 = some (2, 0) ∧
    ((2 : Int), (0 : Nat)) ≠
      ((cexLeadA.length : Int) + 0 - 3600, (0 : Nat)) := by
  refine ⟨by decide, by decide, by decide, by decide, by decide⟩

/-- Claim C1 amended: whenever the block found by the program's
longest-match search over the two windows (difflib's `find_longest_match`
with the autojunk purge, which coincides with the longest contiguous
common run when the follow window has fewer than 200 records) has follow
offset at most 1, reaches the end of lead's window, and — additionally to
the original claim — starts at a strictly positive offset of lead's window
(the code's `a > 0` gate), `match` returns exactly
`(len(lead) - window + matchStartInLead, matchStartInFollow)`, also when
`lead` is shorter than the window (the first component is then negative,
as in Python). -/
theorem match_case3_cut_formula (lead follow : List HashRec) (a b size : Nat)
    (h : find_longest_match (leadWindow lead 3600) (followWindow follow 3600)
      = (a, b, size))
    (hsize : 0 < size) (ha : 0 < a) (hb : b ≤ 1)
    (hend : a + size = (leadWindow lead 3600).length) :
    matchSegs lead follow 3600 = some ((lead.length : Int) + a - 3600, b) := by
  have hw : (leadWindow lead 3600).length ≤ 3600 := leadWindow_len_le lead
  simp only [matchSegs]
  rw [h]
  rw [min_eq_right hw]
  rw [if_pos (⟨hsize, ha⟩ : 0 < size ∧ 0 < a)]
  rw [if_pos (⟨hb, hend⟩ : b ≤ 1 ∧ a + size = (leadWindow lead 3600).length)]
  rfl

/-- Witness for `match_case3_cut_formula`: with `lead = [x, y, z]` and
`follow = [y, z, w]` the longest run is `[y, z]` at `(a, b) = (1, 0)` and
the returned pair is `(3 + 1 - 3600, 0)`. -/
def witLeadA : List HashRec := [mkRec "x" "f1", mkRec "y" "f1", mkRec "z" "f1"]

def witFollowA : List HashRec := [mkRec "y" "f2", mkRec "z" "f2", mkRec "w" "f2"]

theorem match_case3_cut_formula_witness :
    matchSegs witLeadA witFollowA 3600 = some (-3596, 0) := by
  have := match_case3_cut_formula witLeadA witFollowA 1 0 2
    (by decide) (by decide) (by decide) (by decide) (by decide)
  exact this.trans (by decide)

/-! ## Claim C2 -/

def cexLeadB : List HashRec := [mkRec "x" "f1", mkRec "y" "f1"]

def cexFollowB : List HashRec := [mkRec "y" "f2", mkRec "z" "f2"]

/-- Claim C2 as stated is false: with `lead = [x, y]` and `follow = [y, z]`
the longest common run is the single record `y` at `(a, b) = (1, 0)`, which
touches the end of lead's window with follow offset 0; the `b <= 1 and
a+size == min(...)` branch at combine_hash.py line 40 fires before the
`size == 1` noise branch, so `match` returns `(2 + 1 - 3600, 0) = (-3597,
0)` — an overlap cut — instead of the claimed no-overlap `(len(lead), 0) =
(2, 0)`. -/
theorem match_single_noise_cex :
    find_longest_match (leadWindow cexLeadB 3600) (followWindow cexFollowB 3600)
      = (1, 0, 1) ∧
    matchSegs cexLeadB cexFollowB 3600 = some (-3597, 0) ∧
    some ((-3597 : Int), (0 : Nat)) ≠ some ((cexLeadB.length : Int), 0) := by
  refine ⟨by decide, by decide, by decide⟩

/-- Claim C2 amended: a single-length block found by the program's
longest-match search (difflib's `find_longest_match` with the autojunk
purge; the longest contiguous common run when the follow window has fewer
than 200 records) is declared no overlap — return `(len(lead), 0)` — only
when it does not trigger the boundary-anchored branches first: either its
start offset in lead's window is 0, or it is positive but the match
neither sits at the very end of lead's window with follow offset at most 1
nor consumes the whole of a shorter-than-window follow at offset 0.  In
the excluded boundary cases the single record is treated as a genuine
overlap cut instead. -/
theorem match_single_noise (lead follow : List HashRec) (a b : Nat)
    (h : find_longest_match (leadWindow lead 3600) (followWindow follow 3600)
      = (a, b, 1))
    (hcase : a = 0 ∨ (0 < a ∧
      ¬(b ≤ 1 ∧ a + 1 = (leadWindow lead 3600).length) ∧
      ¬(b = 0 ∧ 1 = (followWindow follow 3600).length ∧
          (followWindow follow 3600).length < 3600))) :
    matchSegs lead follow 3600 = some ((lead.length : Int), 0) := by
  have hw : (leadWindow lead 3600).length ≤ 3600 := leadWindow_len_le lead
  simp only [matchSegs]
  rw [h]
  rw [min_eq_right hw]
  rcases hcase with rfl | ⟨ha, h3, h4⟩
  · rw [if_neg (by omega : ¬((0 : Nat) < 1 ∧ (0 : Nat) < 0))]
  · rw [if_pos (⟨by omega, ha⟩ : (0 : Nat) < 1 ∧ 0 < a)]
    rw [if_neg h3]
    rw [if_neg h4]
    rw [if_pos (rfl : (1 : Nat) = 1)]

def witLeadB : List HashRec := [mkRec "x" "f1", mkRec "y" "f1"]

def witFollowB : List HashRec := [mkRec "x" "f2", mkRec "z" "f2"]

/-- Witness for `match_single_noise`: `lead = [x, y]`, `follow = [x, z]`
share only the single fingerprint `x` at `(a, b) = (0, 0)`, and `match`
reports no overlap. -/
theorem match_single_noise_witness :
    matchSegs witLeadB witFollowB 3600 = some (2, 0) := by
  have := match_single_noise witLeadB witFollowB 0 0 (by decide)
    (Or.inl rfl)
  exact this.trans (by decide)

/-! ## Claim C4 -/

def cexLeadC : List HashRec :=
  [mkRec "x" "f1", mkRec "m1" "f1", mkRec "m2" "f1", mkRec "y" "f1"]

def cexFollowC : List HashRec :=
  [mkRec "u" "f2", mkRec "v" "f2", mkRec "m1" "f2", mkRec "m2" "f2",
   mkRec "w" "f2"]

/-- Claim C4 as stated is false: the fingerprints at an internal match's
start and end positions are equal by construction (that is what makes it a
match), so by the claim every internal match whose edge fingerprints agree
should raise the hard assertion failure.  The code instead compares the
whole record tuples `lead[a]` and `follow[b]` (combine_hash.py line 51),
which differ already in the provenance field; on this input the internal
run `[m1, m2]` at `(a, b) = (1, 2)` has equal fingerprints at both edges
yet `match` returns the downgraded no-overlap `(4, 0)` rather than
raising. -/
theorem match_internal_cex :
    find_longest_match (leadWindow cexLeadC 3600) (followWindow cexFollowC 3600)
      = (1, 2, 2) ∧
    (leadWindow cexLeadC 3600).get? 1 = (followWindow cexFollowC 3600).get? 2 ∧
    (leadWindow cexLeadC 3600).get? 2 = (followWindow cexFollowC 3600).get? 3 ∧
    matchSegs cexLeadC cexFollowC 3600 = some (4, 0) := by
  refine ⟨by decide, by decide, by decide, by decide⟩

/-- Claim C4 amended: for an internal block found by the program's
longest-match search (difflib's `find_longest_match` with the autojunk
purge; the longest contiguous common run when the follow window has fewer
than 200 records) of length at least 2 — start offset in lead's window
positive, anchored neither to the end of lead's window with follow offset
at most 1 nor consuming a shorter-than-window follow from offset 0 — the
downgrade test compares the full record tuples of the untrimmed lists at
the window offsets, not the fingerprints: if `lead[a] != follow[b]` and
`lead[a+size-1] != follow[b+size-1]` as whole tuples, `match` returns
`(len(lead), 0)`; otherwise it raises `AssertionError`. -/
theorem match_internal_downgrade (lead follow : List HashRec)
    (a b size : Nat)
    (h : find_longest_match (leadWindow lead 3600) (followWindow follow 3600)
      = (a, b, size))
    (hsize : 2 ≤ size) (ha : 0 < a)
    (h3 : ¬(b ≤ 1 ∧ a + size = (leadWindow lead 3600).length))
    (h4 : ¬(b = 0 ∧ size = (followWindow follow 3600).length ∧
        (followWindow follow 3600).length < 3600)) :
    (lead.get? a ≠ follow.get? b ∧
        lead.get? (a + size - 1) ≠ follow.get? (b + size - 1) →
      matchSegs lead follow 3600 = some ((lead.length : Int), 0)) ∧
    (lead.get? a = follow.get? b ∨
        lead.get? (a + size - 1) = follow.get? (b + size - 1) →
      matchSegs lead follow 3600 = none) := by
  have hw : (leadWindow lead 3600).length ≤ 3600 := leadWindow_len_le lead
  simp only [matchSegs]
  rw [h]
  rw [min_eq_right hw]
  rw [if_pos (⟨by omega, ha⟩ : 0 < size ∧ 0 < a)]
  rw [if_neg h3]
  rw [if_neg h4]
  rw [if_neg (by omega : ¬size = 1)]
  constructor
  · intro hne
    rw [if_pos hne]
  · intro heq
    rw [if_neg (fun hc => heq.elim hc.1 hc.2)]

def witLeadC : List HashRec :=
  [mkRec "p" "g1", mkRec "n1" "g1", mkRec "n2" "g1", mkRec "q" "g1"]

def witFollowC : List HashRec :=
  [mkRec "r" "g2", mkRec "s" "g2", mkRec "n1" "g2", mkRec "n2" "g2",
   mkRec "t" "g2"]

/-- Witness for `match_internal_downgrade`: the internal run `[n1, n2]` at
`(a, b) = (1, 2)` between records from files `g1` and `g2` has differing
tuples at both edges, so `match` downgrades to `(4, 0)`. -/
theorem match_internal_downgrade_witness :
    matchSegs witLeadC witFollowC 3600 = some (4, 0) := by
  have := (match_internal_downgrade witLeadC witFollowC 1 2 2
    (by decide) (by decide) (by decide) (by decide) (by decide)).1 (by decide)
  exact this.trans (by decide)

/-! ## Claim C3 -/

def seg1 : List HashRec :=
  [mkRec "h1" "s1", mkRec "h2" "s1", mkRec "h3" "s1", mkRec "h4" "s1",
   mkRec "h5" "s1"]

def seg2 : List HashRec :=
  [mkRec "h4" "s2", mkRec "h5" "s2", mkRec "h6" "s2", mkRec "h7" "s2"]

def seg3 : List HashRec := [mkRec "h8" "s3", mkRec "h9" "s3"]

/-- Claim C3 describes the intended end-to-end scenario, but the code does
not produce it: joining `[h1..h5]`, `[h4..h7]`, `[h8, h9]` with the default
window of 3600 yields `[h4, h5, h6, h7, h8, h9]`, not the claimed
`[h1, ..., h9]`.  The overlap between the first two segments is found
(`match` returns the cut pair `(5 + 3 - 3600, 0) = (-3592, 0)`), but because
the lead is shorter than the window the negative cut index makes
`lead[:a_end]` empty and the whole of segment 1 is discarded.  The third
segment is appended unchanged after the no-overlap result `(4, 0)`. -/
theorem join_three_segments_eval :
    join_hashes [seg1, seg2, seg3] = some (seg2 ++ seg3) ∧
    matchSegs seg1 seg2 3600 = some (-3592, 0) ∧
    matchSegs seg2 seg3 3600 = some (4, 0) ∧
    join_hashes [seg1, seg2, seg3] ≠ some (seg1 ++ seg2.drop 2 ++ seg3) := by
  refine ⟨by decide, by decide, by decide, by decide⟩

/-! ## Claim C5 -/

/-- A successful `read_bytes` keeps the underlying bytes, advances the
position by exactly `size`, and can only succeed while `size` bytes remain
past the current position. -/
theorem read_bytes_spec {s : ByteStream} {n : Nat} {d : List Nat}
    {s' : ByteStream} (h : read_bytes s n = some (d, s')) :
    s'.bytes = s.bytes ∧ s'.pos = s.pos + n ∧ n ≤ s.bytes.length - s.pos := by
  simp only [read_bytes] at h
  split at h
  · exact Option.noConfusion h
  · rename_i hge
    rw [Option.some.injEq, Prod.mk.injEq] at h
    obtain ⟨-, rfl⟩ := h
    simp only [List.length_take, List.length_drop] at hge
    exact ⟨rfl, rfl, by omega⟩

/-- A successful `read_tag_fields` consumes at least the 15 fixed header
and trailer bytes and never moves the position past the end of the
source. -/
theorem read_tag_fields_bound {s : ByteStream} {t : FlvTagRaw}
    {s' : ByteStream} (h : read_tag_fields s = some (t, s')) :
    s'.bytes = s.bytes ∧ s.pos + 15 ≤ s'.pos ∧ s'.pos ≤ s.bytes.length := by
  simp only [read_tag_fields] at h
  cases h1 : read_bytes s 1 with
  | none => rw [h1] at h; exact Option.noConfusion h
  | some r1 =>
  rw [h1, Option.some_bind] at h
  cases h2 : read_bytes r1.2 3 with
  | none => rw [h2] at h; exact Option.noConfusion h
  | some r2 =>
  rw [h2, Option.some_bind] at h
  cases h3 : read_bytes r2.2 3 with
  | none => rw [h3] at h; exact Option.noConfusion h
  | some r3 =>
  rw [h3, Option.some_bind] at h
  cases h4 : read_bytes r3.2 1 with
  | none => rw [h4] at h; exact Option.noConfusion h
  | some r4 =>
  rw [h4, Option.some_bind] at h
  cases h5 : read_bytes r4.2 3 with
  | none => rw [h5] at h; exact Option.noConfusion h
  | some r5 =>
  rw [h5, Option.some_bind] at h
  cases h6 : read_bytes r5.2 (big_endian_to_int r2.1) with
  | none => rw [h6] at h; exact Option.noConfusion h
  | some r6 =>
  rw [h6, Option.some_bind] at h
  cases h7 : read_bytes r6.2 4 with
  | none => rw [h7] at h; exact Option.noConfusion h
  | some r7 =>
  rw [h7, Option.some_bind] at h
  rw [Option.some.injEq, Prod.mk.injEq] at h
  obtain ⟨-, rfl⟩ := h
  obtain ⟨b1, p1, l1⟩ := read_bytes_spec h1
  obtain ⟨b2, p2, l2⟩ := read_bytes_spec h2
  obtain ⟨b3, p3, l3⟩ := read_bytes_spec h3
  obtain ⟨b4, p4, l4⟩ := read_bytes_spec h4
  obtain ⟨b5, p5, l5⟩ := read_bytes_spec h5
  obtain ⟨b6, p6, l6⟩ := read_bytes_spec h6
  obtain ⟨b7, p7, l7⟩ := read_bytes_spec h7
  rw [b1] at b2 l2
  rw [b2] at b3 l3
  rw [b3] at b4 l4
  rw [b4] at b5 l5
  rw [b5] at b6 l6
  rw [b6] at b7 l7
  exact ⟨b7, by omega, by omega⟩

/-- A successfully constructed tag performed exactly the reads of
`read_tag_fields`, so the same position bounds hold. -/
theorem get_next_tag_ok_bound {cfg : Config} {s : ByteStream} {t : FlvTag}
    {s' : ByteStream} (h : get_next_tag cfg s = Except.ok (t, s')) :
    s'.bytes = s.bytes ∧ s.pos + 15 ≤ s'.pos ∧ s'.pos ≤ s.bytes.length := by
  unfold get_next_tag at h
  split at h
  · exact Except.noConfusion h
  · rename_i raw s1 hr
    split at h
    · exact Except.noConfusion h
    · rw [Except.ok.injEq, Prod.mk.injEq] at h
      obtain ⟨-, rfl⟩ := h
      exact read_tag_fields_bound hr

/-- Once the fuel exceeds the number of unread bytes it no longer matters:
each successfully constructed tag consumes at least 15 of them, and the
two error outcomes ignore the fuel. -/
theorem iter_tag_fuel_stable (cfg : Config) :
    ∀ (n : Nat) (s : ByteStream), s.bytes.length - s.pos < n →
      iter_tag_fuel cfg n s = iter_tag_fuel cfg (n + 1) s := by
  intro n
  induction n with
  | zero => intro s hlt; omega
  | succ n ih =>
    intro s hlt
    cases hg : get_next_tag cfg s with
    | error e =>
      cases e with
      | ioError =>
        have e1 : iter_tag_fuel cfg (n + 1) s = ([], none) := by
          show (match get_next_tag cfg s with
            | Except.error ReadErr.ioError =>
              (([] : List FlvTag), (none : Option String))
            | Except.error (ReadErr.tagError e) => ([], some e)
            | Except.ok (t, s') =>
              (t :: (iter_tag_fuel cfg n s').1,
               (iter_tag_fuel cfg n s').2)) = ([], none)
          rw [hg]
        have e2 : iter_tag_fuel cfg (n + 1 + 1) s = ([], none) := by
          show (match get_next_tag cfg s with
            | Except.error ReadErr.ioError =>
              (([] : List FlvTag), (none : Option String))
            | Except.error (ReadErr.tagError e) => ([], some e)
            | Except.ok (t, s') =>
              (t :: (iter_tag_fuel cfg (n + 1) s').1,
               (iter_tag_fuel cfg (n + 1) s').2)) = ([], none)
          rw [hg]
        rw [e1, e2]
      | tagError msg =>
        have e1 : iter_tag_fuel cfg (n + 1) s = ([], some msg) := by
          show (match get_next_tag cfg s with
            | Except.error ReadErr.ioError =>
              (([] : List FlvTag), (none : Option String))
            | Except.error (ReadErr.tagError e) => ([], some e)
            | Except.ok (t, s') =>
              (t :: (iter_tag_fuel cfg n s').1,
               (iter_tag_fuel cfg n s').2)) = ([], some msg)
          rw [hg]
        have e2 : iter_tag_fuel cfg (n + 1 + 1) s = ([], some msg) := by
          show (match get_next_tag cfg s with
            | Except.error ReadErr.ioError =>
              (([] : List FlvTag), (none : Option String))
            | Except.error (ReadErr.tagError e) => ([], some e)
            | Except.ok (t, s') =>
              (t :: (iter_tag_fuel cfg (n + 1) s').1,
               (iter_tag_fuel cfg (n + 1) s').2)) = ([], some msg)
          rw [hg]
        rw [e1, e2]
    | ok ts =>
      obtain ⟨t, s'⟩ := ts
      obtain ⟨hb, hp, hl⟩ := get_next_tag_ok_bound hg
      have e1 : iter_tag_fuel cfg (n + 1) s =
          (t :: (iter_tag_fuel cfg n s').1, (iter_tag_fuel cfg n s').2) := by
        show (match get_next_tag cfg s with
          | Except.error ReadErr.ioError =>
            (([] : List FlvTag), (none : Option String))
          | Except.error (ReadErr.tagError e) => ([], some e)
          | Except.ok (t, s') =>
            (t :: (iter_tag_fuel cfg n s').1,
             (iter_tag_fuel cfg n s').2)) = _
        rw [hg]
      have e2 : iter_tag_fuel cfg (n + 1 + 1) s =
          (t :: (iter_tag_fuel cfg (n + 1) s').1,
           (iter_tag_fuel cfg (n + 1) s').2) := by
        show (match get_next_tag cfg s with
          | Except.error ReadErr.ioError =>
            (([] : List FlvTag), (none : Option String))
          | Except.error (ReadErr.tagError e) => ([], some e)
          | Except.ok (t, s') =>
            (t :: (iter_tag_fuel cfg (n + 1) s').1,
             (iter_tag_fuel cfg (n + 1) s').2)) = _
        rw [hg]
      rw [e1, e2, ih s' (by rw [hb]; omega)]

/-- Claim C5 amended: iteration is only ever ended cleanly by a truncated
read.  `iter_tag` stops at the first failing tag: a short read anywhere —
at a tag boundary, inside the 11-byte tag header, the payload, or the
4-byte trailing size — raises `IOError`, which the loop catches and turns
into a clean end of iteration (`none`), never a fatal error; whereas an
exception escaping the eager `FlvTag` construction (a normalization
`AssertionError`/`NotImplementedError`, the `TypeError` from hashing a
fallen-through Python `None`, or `parse_meta`'s `IndexError`) is not
caught and aborts iteration with the error surfaced to the caller
(`some e`). -/
theorem iter_tag_unfold (cfg : Config) (s : ByteStream) :
    iter_tag cfg s = (match get_next_tag cfg s with
      | Except.error ReadErr.ioError => ([], none)
      | Except.error (ReadErr.tagError e) => ([], some e)
      | Except.ok (t, s') =>
        (t :: (iter_tag cfg s').1, (iter_tag cfg s').2)) := by
  cases hg : get_next_tag cfg s with
  | error e =>
    cases e with
    | ioError =>
      show (match get_next_tag cfg s with
        | Except.error ReadErr.ioError =>
          (([] : List FlvTag), (none : Option String))
        | Except.error (ReadErr.tagError e) => ([], some e)
        | Except.ok (t, s') =>
          (t :: (iter_tag_fuel cfg s.bytes.length s').1,
           (iter_tag_fuel cfg s.bytes.length s').2)) = ([], none)
      rw [hg]
    | tagError msg =>
      show (match get_next_tag cfg s with
        | Except.error ReadErr.ioError =>
          (([] : List FlvTag), (none : Option String))
        | Except.error (ReadErr.tagError e) => ([], some e)
        | Except.ok (t, s') =>
          (t :: (iter_tag_fuel cfg s.bytes.length s').1,
           (iter_tag_fuel cfg s.bytes.length s').2)) = ([], some msg)
      rw [hg]
  | ok ts =>
    obtain ⟨t, s'⟩ := ts
    obtain ⟨hb, hp, hl⟩ := get_next_tag_ok_bound hg
    show iter_tag cfg s = (t :: (iter_tag cfg s').1, (iter_tag cfg s').2)
    have e1 : iter_tag cfg s =
        (t :: (iter_tag_fuel cfg s.bytes.length s').1,
         (iter_tag_fuel cfg s.bytes.length s').2) := by
      show (match get_next_tag cfg s with
        | Except.error ReadErr.ioError =>
          (([] : List FlvTag), (none : Option String))
        | Except.error (ReadErr.tagError e) => ([], some e)
        | Except.ok (t, s') =>
          (t :: (iter_tag_fuel cfg s.bytes.length s').1,
           (iter_tag_fuel cfg s.bytes.length s').2)) = _
      rw [hg]
    have e3 : iter_tag_fuel cfg s.bytes.length s' =
        iter_tag_fuel cfg (s.bytes.length + 1) s' :=
      iter_tag_fuel_stable cfg s.bytes.length s' (by rw [hb]; omega)
    have e2 : iter_tag cfg s' = iter_tag_fuel cfg (s.bytes.length + 1) s' := by
      simp only [iter_tag, hb]
    rw [e1, e3, e2]

def truncBytes : List Nat :=
  [70, 76, 86, 1, 5, 0, 0, 0, 9] ++ [0, 0, 0, 0] ++
  [9, 0, 0, 100, 0, 0, 0, 0, 0, 0, 0] ++ [1, 2]

/-- Claim C5 as stated is false on this byte source: the FLV header is
accepted, the full 11-byte tag header of the first tag is present
(declaring a 100-byte payload) and only 2 payload bytes follow, so the
truncated read happens strictly inside the tag — yet `iter_tag` terminates
cleanly with zero tags and no error, exactly as if the stream had ended at
the tag boundary, because `iter_tag` catches every `IOError` from
`read_bytes` and treats it as end of iteration. -/
theorem iter_tag_truncated_cex :
    flv_reader_init ⟨truncBytes, 0⟩ = some ⟨truncBytes, 13⟩ ∧
    (read_bytes ⟨truncBytes, 13⟩ 11).isSome = true ∧
    get_next_tag ⟨false, false⟩ ⟨truncBytes, 13⟩ =
      Except.error ReadErr.ioError ∧
    iter_tag ⟨false, false⟩ ⟨truncBytes, 13⟩ = ([], none) := by
  refine ⟨by decide, by decide, by rfl, by rfl⟩

/-! ## Claim C8 -/

/-- Claim C8 as stated is false: with skip-existing enabled and only the
video log present (audio and misc logs missing), the claim requires the run
to proceed, but `dump_hash` returns immediately — the code short-circuits as
soon as any one of the three files exists (flv_hasher.py lines 125-130),
not only when all three exist. -/
theorem dump_hash_skip_cex :
    dump_hash_proceeds true true false false = false ∧
    (true && false && false) = false := by
  refine ⟨rfl, rfl⟩

/-- Claim C8 amended: with skip-existing enabled the run is a no-op iff at
least one of the three per-media-type log files already exists; it proceeds
iff the flag is off or none of the three exists. -/
theorem dump_hash_gate (skip v a m : Bool) :
    dump_hash_proceeds skip v a m = (!skip || (!v && !a && !m)) := by
  cases skip <;> cases v <;> cases a <;> cases m <;> rfl

/-! ## Claim C9 -/

/-- Claim C9: for a non-empty well-formed file, `load_hashfile` returns the
records (with the file name appended) in order, removing the last record iff
its fingerprint equals the trailing sentinel and the first record iff its
fingerprint is one of the four leading sentinels, and nothing else. -/
theorem load_hashfile_strips (recs : List (List String)) (fn : String)
    (h : recs ≠ []) :
    load_hashfile recs fn =
      some ((if ((withFn recs fn).getLastD []).headD "" = trailSentinel
             then (withFn recs fn).dropLast
             else withFn recs fn).drop
            (if leadSentinels.contains (((withFn recs fn).headD []).headD "")
             then 1 else 0)) := by
  have hne : ¬(withFn recs fn).isEmpty = true := by
    simp only [withFn, List.isEmpty_iff, List.map_eq_nil_iff]
    exact h
  simp only [load_hashfile]
  rw [if_neg hne]
  by_cases hc2 : ((withFn recs fn).getLastD []).headD "" = trailSentinel
  · rw [if_pos hc2]
    simp only [pySlice]
    rw [if_neg (by norm_num : ¬(0 : Int) ≤ -1)]
    rw [show (-(-1 : Int)).toNat = 1 from rfl]
    rw [List.dropLast_eq_take]
    rw [if_pos hc2]
  · rw [if_neg hc2]
    simp only [pySlice]
    rw [if_pos (Int.ofNat_nonneg _)]
    rw [Int.toNat_natCast]
    rw [List.take_length]
    rw [if_neg hc2]

def c9recs : List (List String) :=
  [["385582ab16cda6cd4679a885595934d8", "00:00:00.000"],
   ["0123456789abcdef0123456789abcdef", "00:00:00.033"],
   ["4190e69bc46ee05ab77499152204f527", "00:00:00.067"]]

/-- Witness for `load_hashfile_strips`: a three-record file whose first
record is a leading sentinel and whose last record is the trailing sentinel
loads as just the middle record. -/
theorem load_hashfile_strips_witness :
    load_hashfile c9recs "f-hash_v.txt" =
      some [["0123456789abcdef0123456789abcdef", "00:00:00.033",
             "f-hash_v.txt"]] := by
  exact (load_hashfile_strips c9recs "f-hash_v.txt" (by decide)).trans
    (by decide)

/-! ## Claim C10 -/

def c10Bytes : List Nat :=
  [70, 76, 86, 1, 5, 0, 0, 0, 9] ++ [0, 0, 0, 0] ++
  [9, 0, 0, 1, 0, 0, 0, 0, 0, 0, 0] ++ [0x17] ++ [0, 0, 0, 12]

/-- Claim C10: there is a video tag accepted by the reader — here a
complete, well-formed FLV file whose single video tag has the one-byte
payload `0x17` — on which fingerprint-record construction fails with an
out-of-range index: the normalized payload is exactly one byte whose low
nibble is 7 (AVC), so `parse_meta` reads `data[1]` which does not exist
(flv_hasher.py line 235); only the fully empty payload is guarded as the
no-descriptor case (line 229).  The last conjunct shows the `IndexError`
escaping the tag construction inside `get_next_tag` under the default
flags. -/
theorem parse_meta_avc_one_byte :
    flv_reader_init ⟨c10Bytes, 0⟩ = some ⟨c10Bytes, 13⟩ ∧
    read_tag_fields ⟨c10Bytes, 13⟩ =
      some (⟨9, 0, [0x17], 13⟩, ⟨c10Bytes, 29⟩) ∧
    normalize_data ⟨false, false⟩ [0x17] = Except.ok (PyVal.bytes [0x17]) ∧
    (0x17 : Nat) % 16 = 7 ∧
    parse_meta 9 [0x17] = none ∧
    parse_meta 9 [] = some emptyMeta ∧
    get_next_tag ⟨false, false⟩ ⟨c10Bytes, 13⟩ =
      Except.error (ReadErr.tagError "IndexError") := by
  refine ⟨by decide, by decide, by rfl, by decide, by decide, by decide,
    by rfl⟩

/-! ## Claim C6 -/

/-- If the 4-byte padding signature is absent at the fixed offset, the
5-byte variant checked by `filter_vheader` is absent too. -/
theorem sig5_isPrefixOf_false {s : List Nat}
    (h : [0, 0, 0, 2].isPrefixOf s = false) :
    [0, 0, 0, 2, 9].isPrefixOf s = false := by
  by_contra hc
  rw [Bool.not_eq_false, List.isPrefixOf_iff_prefix] at hc
  have h4 : ([0, 0, 0, 2] : List Nat) <+: s :=
    List.IsPrefix.trans ⟨[9], rfl⟩ hc
  rw [← List.isPrefixOf_iff_prefix, h] at h4
  exact Bool.noConfusion h4

/-- Without the padding signature at offset 5, `filter_hls` returns its
input unchanged. -/
theorem filter_hls_unfiltered {p : List Nat}
    (h1 : [0, 0, 0, 2].isPrefixOf ((p.drop 5).take 5) = false) :
    filter_hls p = Except.ok (PyVal.bytes p) := by
  simp only [filter_hls, h1, Bool.false_eq_true, if_false]

/-- Without the padding signature and without the injected-header marker in
the first 300 bytes, `filter_vheader` reduces to the final sanity assert. -/
theorem filter_vheader_unfiltered {p : List Nat}
    (h1 : [0, 0, 0, 2].isPrefixOf ((p.drop 5).take 5) = false)
    (h2 : containsBytes (p.take 300) bvcMarker = false) :
    filter_vheader p =
      (if p.take 3 = [0, 0, 0] then Except.error "AssertionError"
       else Except.ok p) := by
  have h5 := sig5_isPrefixOf_false h1
  simp only [filter_vheader, h5, Bool.false_eq_true, if_false, h2]

/-- On a payload in the known-unfiltered shape, `normalize_data` is either
the sanity-assert failure or the identity, for every configuration. -/
theorem normalize_data_unfiltered {cfg : Config} {p : List Nat}
    (h1 : [0, 0, 0, 2].isPrefixOf ((p.drop 5).take 5) = false)
    (h2 : containsBytes (p.take 300) bvcMarker = false) :
    normalize_data cfg p =
      (if cfg.vheader_ignore = false ∧ p.take 3 = [0, 0, 0]
       then Except.error "AssertionError"
       else Except.ok (PyVal.bytes p)) := by
  have hstep : (if cfg.hls_fix then filter_hls p
      else Except.ok (PyVal.bytes p)) = Except.ok (PyVal.bytes p) := by
    cases cfg.hls_fix
    · rw [if_neg Bool.false_ne_true]
    · rw [if_pos rfl]
      exact filter_hls_unfiltered h1
  simp only [normalize_data]
  rw [hstep]
  show (if cfg.vheader_ignore then Except.ok (PyVal.bytes p)
        else match filter_vheader p with
             | Except.error e => Except.error e
             | Except.ok q => Except.ok (PyVal.bytes q)) = _
  cases cfg.vheader_ignore
  · rw [if_neg Bool.false_ne_true]
    rw [filter_vheader_unfiltered h1 h2]
    by_cases ht : p.take 3 = [0, 0, 0]
    · rw [if_pos ht, if_pos ⟨rfl, ht⟩]
    · rw [if_neg ht, if_neg (fun hc => ht hc.2)]
  · rw [if_pos rfl, if_neg (fun hc => Bool.noConfusion hc.1)]

/-- Claim C6: normalization is deterministic, and idempotent on every
payload already in the known-unfiltered shape (no padding signature at
offset 5, no `BVCLIVETIMESTAMP` marker in the first 300 bytes): whenever
`normalize_data` returns bytes `q` for such a payload, normalizing `q`
again returns the same `q`. -/
theorem normalize_idempotent_det (cfg : Config) (p : List Nat)
    (h1 : [0, 0, 0, 2].isPrefixOf ((p.drop 5).take 5) = false)
    (h2 : containsBytes (p.take 300) bvcMarker = false) :
    (∀ q, normalize_data cfg p = Except.ok (PyVal.bytes q) →
      normalize_data cfg q = Except.ok (PyVal.bytes q)) ∧
    (∀ p', p' = p → normalize_data cfg p' = normalize_data cfg p) := by
  refine ⟨?_, fun p' hp => by rw [hp]⟩
  intro q hq
  rw [normalize_data_unfiltered h1 h2] at hq
  by_cases hc : cfg.vheader_ignore = false ∧ p.take 3 = [0, 0, 0]
  · rw [if_pos hc] at hq
    exact Except.noConfusion hq
  · rw [if_neg hc] at hq
    have hpq : p = q := by
      injection hq with h'
      injection h'
    subst hpq
    rw [normalize_data_unfiltered h1 h2, if_neg hc]

/-- Witness for `normalize_idempotent_det`: the three-byte payload
`[1, 2, 3]` is unfiltered in every sense and normalizes to itself. -/
theorem normalize_idempotent_det_witness :
    normalize_data ⟨false, false⟩ [1, 2, 3] =
      Except.ok (PyVal.bytes [1, 2, 3]) := by
  exact (normalize_idempotent_det ⟨false, false⟩ [1, 2, 3]
    (by decide) (by decide)).1 [1, 2, 3] rfl

/-! ## Claim C7 -/

def hlsPadCex : List Nat :=
  [0x17, 0, 0, 0, 0, 0, 0, 0, 2, 9, 0xf0, 1, 2, 3, 4, 5, 5, 5]

/-- Claim C7 as stated is false: on a keyframe payload carrying the padding
signature whose length field `data[11:15] = [1, 2, 3, 4]` matches neither
known variant, `filter_hls` falls off the end of its `data[0] == 0x17`
branch and returns the Python value `None` — not a byte sequence and not a
raised error; with the header filter active the `None` then raises an
undesignated `TypeError` on its first subscript. -/
theorem normalize_pynone_cex :
    filter_hls hlsPadCex = Except.ok PyVal.pynone ∧
    normalize_data ⟨true, true⟩ hlsPadCex = Except.ok PyVal.pynone ∧
    normalize_data ⟨true, false⟩ hlsPadCex = Except.error "TypeError" := by
  refine ⟨rfl, rfl, rfl⟩

/-- When `filter_hls` yields Python `None`, the `data` property returns
`None` with the header filter disabled and raises `TypeError` with it
enabled. -/
theorem normalize_data_of_hls_pynone {p : List Nat}
    (hf : filter_hls p = Except.ok PyVal.pynone) (vi : Bool) :
    normalize_data ⟨true, vi⟩ p =
      (if vi then Except.ok PyVal.pynone else Except.error "TypeError") := by
  simp only [normalize_data]
  rw [if_pos trivial]
  rw [hf]

/-- Claim C7 amended: the padding filter is not total in the claimed sense.
For every payload whose first byte is `0x17`, whose bytes 5-10 are the full
padding signature, and whose length field `data[11:15]` matches neither
`[0, 0, 0, 0x0e]` nor `[0, 0, 0, 0x27]`, `filter_hls` returns the non-byte
Python value `None`; `normalize_data` then yields `None` when the header
filter is off and raises a `TypeError` (not a designated fatal error) when
it is on. -/
theorem filter_hls_fallthrough (p : List Nat)
    (h0 : p.headD 0 = 0x17)
    (h6 : (p.drop 5).take 6 = [0, 0, 0, 2, 9, 0xf0])
    (hv1 : (p.drop 11).take 4 ≠ [0, 0, 0, 0x0e])
    (hv2 : (p.drop 11).take 4 ≠ [0, 0, 0, 0x27]) :
    filter_hls p = Except.ok PyVal.pynone ∧
    normalize_data ⟨true, true⟩ p = Except.ok PyVal.pynone ∧
    normalize_data ⟨true, false⟩ p = Except.error "TypeError" := by
  have h55 : ((p.drop 5).take 6).take 5 = (p.drop 5).take 5 := by
    rw [List.take_take]
    norm_num
  have htake5 : (p.drop 5).take 5 = [0, 0, 0, 2, 9] := by
    rw [← h55, h6]
    rfl
  have hg : [0, 0, 0, 2].isPrefixOf ((p.drop 5).take 5) = true := by
    rw [htake5]
    rfl
  have hf : filter_hls p = Except.ok PyVal.pynone := by
    simp only [filter_hls, hg, if_true]
    rw [if_pos h0, if_pos h6, if_neg hv1, if_neg hv2]
  refine ⟨hf, ?_, ?_⟩
  · exact (normalize_data_of_hls_pynone hf true).trans rfl
  · exact (normalize_data_of_hls_pynone hf false).trans rfl

def hlsPadWit : List Nat :=
  [0x17, 9, 9, 9, 9, 0, 0, 0, 2, 9, 0xf0, 7, 7, 7, 7, 1, 2]

/-- Witness for `filter_hls_fallthrough`: a keyframe payload with the
padding signature and the unknown length field `[7, 7, 7, 7]` makes the
padding filter produce the Python `None`. -/
theorem filter_hls_fallthrough_witness :
    filter_hls hlsPadWit = Except.ok PyVal.pynone := by
  exact (filter_hls_fallthrough hlsPadWit (by decide) (by decide)
    (by decide) (by decide)).1
